import Mathlib

/-!
Verification of the social-content collection pipeline of
`ai_agent_utilities` (Reddit / Twitter scraping utilities).

The Python source is shallowly embedded: each relevant function of
`reddit_scrape.py` and `twitter_scrape.py` is translated into an
executable Lean definition, and the claims of the specification are
proved (or refuted) about those definitions.

Modelling conventions:
* A Python operation that may raise is an `Except String` value.
* The zero-argument operation handed to `retry_operation` may behave
  differently on each invocation (it closes over mutable upstream
  state), so it is modelled as a function from the invocation index
  (0-based) to the invocation's outcome.
* `time.sleep` and `print` are pure no-ops observationally and are not
  modelled.
-/

namespace AgentUtils

/-- Outcome of one invocation of a retried operation: the value
returned, or the exception raised. -/
abbrev OpOutcome (E A : Type) := Except E A

/-- Body of the `for attempt in range(max_retries)` loop of
`retry_operation` (twitter_scrape.py lines 15-25), starting at
invocation index `attempt` with `rem` further attempts allowed after
the current one.  On success the value is returned immediately; on
failure with no attempts left the exception is re-raised unwrapped. -/
def retryGo {E A : Type} (op : Nat → OpOutcome E A) (attempt : Nat) : Nat → OpOutcome E A
  | 0 => op attempt
  | Nat.succ rem =>
    match op attempt with
    | Except.ok v => Except.ok v
    | Except.error _ => retryGo op (attempt + 1) rem

/-- Number of invocations of the operation performed by `retryGo`
(instrumentation of the same control flow). -/
def retryGoCount {E A : Type} (op : Nat → OpOutcome E A) (attempt : Nat) : Nat → Nat
  | 0 => 1
  | Nat.succ rem =>
    match op attempt with
    | Except.ok _ => 1
    | Except.error _ => 1 + retryGoCount op (attempt + 1) rem

/-- `retry_operation(operation, max_retries=3)` from twitter_scrape.py.
When `max_retries = 0` the Python loop body never runs and the function
falls through returning `None`, hence the `Option`. -/
def retry_operation {E A : Type} (op : Nat → OpOutcome E A) (max_retries : Nat := 3) :
    Option (OpOutcome E A) :=
  match max_retries with
  | 0 => none
  | Nat.succ k => some (retryGo op 0 k)

/-- Total number of invocations of the operation performed by
`retry_operation`. -/
def retry_attempts {E A : Type} (op : Nat → OpOutcome E A) (max_retries : Nat := 3) : Nat :=
  match max_retries with
  | 0 => 0
  | Nat.succ k => retryGoCount op 0 k

/-! ## Comment tree extractor (reddit_scrape.py, `scrape_detailed_posts`) -/

/-- Upstream comment object as seen by `get_comment_info` after
`replace_more(limit=None)`: id, author (absent for deleted users),
body, score, created timestamp, permalink (relative path as delivered
by the upstream), and the list of direct replies. -/
inductive RComment : Type where
  | mk (cid : String) (cauthor : Option String) (cbody : String) (cscore : Int)
       (ccreated : Nat) (cpermalink : String) (creplies : List RComment)

/-- The dict built by `get_comment_info` for one comment: id, author
(sentinel applied), body, score, created timestamp, derived
human-readable date, absolute permalink, and the materialized replies.
The `awards` list is independent of every claim and is omitted. -/
inductive CommentData : Type where
  | mk (cid : String) (cauthor : String) (cbody : String) (cscore : Int)
       (ccreated : Nat) (ccreated_date : String) (cpermalink : String)
       (creplies : List CommentData)

def RComment.author : RComment → Option String
  | RComment.mk _ a _ _ _ _ _ => a

def RComment.permalink : RComment → String
  | RComment.mk _ _ _ _ _ p _ => p

def CommentData.author : CommentData → String
  | CommentData.mk _ a _ _ _ _ _ _ => a

def CommentData.permalink : CommentData → String
  | CommentData.mk _ _ _ _ _ _ p _ => p

def CommentData.replies : CommentData → List CommentData
  | CommentData.mk _ _ _ _ _ _ _ rs => rs

/-- Human-readable rendering of an epoch timestamp.  Abstracts the
`datetime...strftime('%Y-%m-%d %H:%M:%S')` call; no claim depends on
the concrete format, only on the field being derived from the
timestamp. -/
def created_date_str (timestamp : Nat) : String := toString timestamp

mutual
/-- `get_comment_info(comment, depth=0)` from reddit_scrape.py lines
285-319, together with the reply loop: if `depth > comment_depth` the
node is pruned (`None`); otherwise the comment dict is built with the
sentinel author, the absolute permalink
(`"https://www.reddit.com" + comment.permalink`), and the recursively
materialized replies — a pruned reply is simply not appended to the
parent's `replies` list. -/
def get_comment_info (maxDepth depth : Nat) : RComment → Option CommentData
  | RComment.mk cid cauthor cbody cscore ccreated cpermalink creplies =>
    if maxDepth < depth then none
    else some (CommentData.mk cid (cauthor.getD "[deleted]") cbody cscore ccreated
      (created_date_str ccreated) ("https://www.reddit.com" ++ cpermalink)
      (get_comment_list maxDepth (depth + 1) creplies))
def get_comment_list (maxDepth depth : Nat) : List RComment → List CommentData
  | [] => []
  | c :: cs =>
    match get_comment_info maxDepth depth c with
    | some d => d :: get_comment_list maxDepth depth cs
    | none => get_comment_list maxDepth depth cs
end

mutual
/-- `depthWithin k t = true` when every node strictly below `t` lies
within `k` further levels of nesting (so a tree rooted at depth `d`
with `depthWithin (maxDepth - d) t` has no node deeper than
`maxDepth`).  With budget `0` the node must have no children at all —
this is what distinguishes a pruned branch from an empty placeholder. -/
def depthWithin : Nat → CommentData → Bool
  | 0, CommentData.mk _ _ _ _ _ _ _ rs => rs.isEmpty
  | Nat.succ k, CommentData.mk _ _ _ _ _ _ _ rs => depthWithinList k rs
def depthWithinList : Nat → List CommentData → Bool
  | _, [] => true
  | k, t :: ts => depthWithin k t && depthWithinList k ts
end

/-- `hasRedditBase p = true` when the string `p` starts with the
upstream base URL `https://www.reddit.com`. -/
def hasRedditBase (p : String) : Bool :=
  "https://www.reddit.com".data.isPrefixOf p.data

mutual
/-- `cdAllAbs t = true` when every node of `t` (the root included)
carries a permalink starting with the upstream base URL. -/
def cdAllAbs : CommentData → Bool
  | CommentData.mk _ _ _ _ _ _ p rs =>
    hasRedditBase p && cdAllAbsList rs
def cdAllAbsList : List CommentData → Bool
  | [] => true
  | t :: ts => cdAllAbs t && cdAllAbsList ts
end

/-- Synthetic comment tree of depth 3 (nodes at depths 0, 1, 2 and 3)
for the C2 scenario. -/
def c2Tree : RComment :=
  RComment.mk "d0" (some "alice") "root" 10 100 "/r/x/0"
    [RComment.mk "d1a" (some "bob") "r1" 5 101 "/r/x/1a"
       [RComment.mk "d2" none "r2" 2 102 "/r/x/2"
          [RComment.mk "d3" (some "eve") "r3" 1 103 "/r/x/3" []]],
     RComment.mk "d1b" none "r1b" 4 104 "/r/x/1b" []]

/-- Expected extraction of `c2Tree` with `comment_depth = 1`: exactly
the depth-0 and depth-1 nodes; the depth-2 branch is absent from
`d1a`'s reply list, not present as an empty placeholder. -/
def c2Expected : CommentData :=
  CommentData.mk "d0" "alice" "root" 10 100 (created_date_str 100)
    "https://www.reddit.com/r/x/0"
    [CommentData.mk "d1a" "bob" "r1" 5 101 (created_date_str 101)
       "https://www.reddit.com/r/x/1a" [],
     CommentData.mk "d1b" "[deleted]" "r1b" 4 104 (created_date_str 104)
       "https://www.reddit.com/r/x/1b" []]

/-! ## `scrape_reddit` (reddit_scrape.py lines 13-172) -/

/-- Value stored under a key of a Python post/comment dict: a string,
an integer, a natural-number timestamp/count, or Python `None`. -/
inductive FieldVal : Type where
  | vs (v : String)
  | vi (v : Int)
  | vn (v : Nat)
  | vnull
deriving DecidableEq, Repr

/-- A praw submission as consumed by `scrape_reddit`: the attributes
the function can read, plus the direct comments available after
`post.comments.replace_more(limit=0)`. -/
structure RPost where
  pid : String
  title : String
  score : Int
  url : String
  pauthor : Option String
  created_utc : Nat
  num_comments : Nat
  selftext : String
  permalink : String
  over_18 : Bool
  comments : List RComment

/-- `getattr(post, field)` for the attribute names `scrape_reddit` can
request generically (the `author` and `created_utc` keys are special-
cased before this lookup); an unknown attribute raises
`AttributeError`, which the source converts to `None`. -/
def postAttr (p : RPost) (field : String) : Option FieldVal :=
  if field = "id" then some (FieldVal.vs p.pid)
  else if field = "title" then some (FieldVal.vs p.title)
  else if field = "score" then some (FieldVal.vi p.score)
  else if field = "url" then some (FieldVal.vs p.url)
  else if field = "num_comments" then some (FieldVal.vn p.num_comments)
  else if field = "selftext" then some (FieldVal.vs p.selftext)
  else if field = "permalink" then some (FieldVal.vs p.permalink)
  else none

/-- One iteration of the `for field in include_fields` loop of
`scrape_reddit` (lines 96-109): `author` resolves via the
`'[deleted]'` sentinel, `created_utc` additionally emits the derived
`created_date`, any other field is read with `getattr` and falls back
to `None` on `AttributeError`.  Note that a requested `permalink` is
copied verbatim from the upstream attribute. -/
def projectField (p : RPost) (field : String) : List (String × FieldVal) :=
  if field = "author" then [("author", FieldVal.vs (p.pauthor.getD "[deleted]"))]
  else if field = "created_utc" then
    [("created_utc", FieldVal.vn p.created_utc),
     ("created_date", FieldVal.vs (created_date_str p.created_utc))]
  else
    match postAttr p field with
    | some v => [(field, v)]
    | none => [(field, FieldVal.vnull)]

/-- The comment dict appended for each of the first `comment_limit`
direct comments of a post (lines 115-122). -/
structure CommentRec where
  cid : String
  cauthor : String
  cbody : String
  cscore : Int
  ccreated : Nat
deriving DecidableEq, Repr

/-- Builds the `scrape_reddit` comment dict from a praw comment,
applying the author sentinel. -/
def commentToRec : RComment → CommentRec
  | RComment.mk cid cauthor cbody cscore ccreated _ _ =>
    { cid := cid, cauthor := cauthor.getD "[deleted]", cbody := cbody,
      cscore := cscore, ccreated := ccreated }

/-- The `post_data` dict built for one surviving post: the projected
fields in `include_fields` order, and the `comments` key when
`include_comments and comment_limit > 0`. -/
structure PostData where
  fields : List (String × FieldVal)
  comments : Option (List CommentRec)
deriving DecidableEq, Repr

/-- Dict lookup `post_data[key]` (first binding wins; `scrape_reddit`
writes each key once per post). -/
def lookupField (pd : PostData) (key : String) : Option FieldVal :=
  (pd.fields.find? (fun kv => kv.1 = key)).map (fun kv => kv.2)

/-- Default `include_fields` of `scrape_reddit` (lines 61-63). -/
def defaultFields : List String :=
  ["id", "title", "score", "url", "author", "created_utc", "num_comments", "selftext"]

/-- Body of the post loop for one post that passed the filters
(lines 94-125). -/
def processPost (include_fields : List String) (include_comments : Bool)
    (comment_limit : Nat) (p : RPost) : PostData :=
  { fields := include_fields.flatMap (projectField p)
  , comments :=
      if include_comments && decide (0 < comment_limit) then
        some ((p.comments.take comment_limit).map commentToRec)
      else none }

/-- The two `continue` guards of the post loop (lines 86-92): a post
is kept unless it is NSFW while `exclude_nsfw` is set, or its score is
below `min_score`. -/
def keepPost (exclude_nsfw : Bool) (min_score : Int) (p : RPost) : Bool :=
  !(exclude_nsfw && p.over_18) && !(decide (p.score < min_score))

/-- Filter-and-project stage of `scrape_reddit`: the surviving posts,
projected, in upstream order. -/
def processAll (include_fields : List String) (include_comments : Bool)
    (comment_limit : Nat) (exclude_nsfw : Bool) (min_score : Int)
    (subs : List RPost) : List PostData :=
  (subs.filter (keepPost exclude_nsfw min_score)).map
    (processPost include_fields include_comments comment_limit)

/-- The upstream listing/search call selected by the dispatch block:
which praw method is invoked and with which arguments.  Note that only
`top` and `controversial` receive the `time_filter` argument. -/
inductive UpstreamCall : Type where
  | search (query sort_by time_filter : String) (limit : Nat)
  | newSort (limit : Nat)
  | hotSort (limit : Nat)
  | topSort (time_filter : String) (limit : Nat)
  | risingSort (limit : Nat)
  | controversialSort (time_filter : String) (limit : Nat)
deriving DecidableEq, Repr

/-- Python truthiness of the `search_query` argument: `None` and the
empty string are falsy. -/
def truthyStr : Option String → Bool
  | none => false
  | some s => !(s = "")

/-- Dispatch block of `scrape_reddit` (lines 70-83): a truthy search
query routes to `subreddit.search` with the sort and time filter
passed through unchecked; otherwise the five recognized sorts route to
their listing methods (`time_filter` forwarded only for `top` and
`controversial`) and anything else raises
`ValueError(f"Invalid sort_by value: {sort_by}")`. -/
def getSubmissions (search_query : Option String) (sort_by time_filter : String)
    (limit : Nat) : Except String UpstreamCall :=
  if truthyStr search_query then
    Except.ok (UpstreamCall.search (search_query.getD "") sort_by time_filter limit)
  else if sort_by = "new" then Except.ok (UpstreamCall.newSort limit)
  else if sort_by = "hot" then Except.ok (UpstreamCall.hotSort limit)
  else if sort_by = "top" then Except.ok (UpstreamCall.topSort time_filter limit)
  else if sort_by = "rising" then Except.ok (UpstreamCall.risingSort limit)
  else if sort_by = "controversial" then
    Except.ok (UpstreamCall.controversialSort time_filter limit)
  else Except.error ("Invalid sort_by value: " ++ sort_by)

/-- The identical dispatch block of `scrape_detailed_posts`
(reddit_scrape.py lines 215-228). -/
def getSubmissionsDetailed (search_query : Option String) (sort_by time_filter : String)
    (limit : Nat) : Except String UpstreamCall :=
  if truthyStr search_query then
    Except.ok (UpstreamCall.search (search_query.getD "") sort_by time_filter limit)
  else if sort_by = "new" then Except.ok (UpstreamCall.newSort limit)
  else if sort_by = "hot" then Except.ok (UpstreamCall.hotSort limit)
  else if sort_by = "top" then Except.ok (UpstreamCall.topSort time_filter limit)
  else if sort_by = "rising" then Except.ok (UpstreamCall.risingSort limit)
  else if sort_by = "controversial" then
    Except.ok (UpstreamCall.controversialSort time_filter limit)
  else Except.error ("Invalid sort_by value: " ++ sort_by)

/-- A comment row of the split-relation comments table, tagged with
its owning post's id (`comment['post_id'] = post_id`, line 147). -/
structure TaggedComment where
  crec : CommentRec
  post_id : FieldVal
deriving DecidableEq, Repr

/-- The `all_comments` accumulation loop of the dataframe branch
(lines 142-148): for each post, `post_id = post['id']` (a missing `id`
key raises `KeyError`), then every nested comment dict is tagged with
that id, in post order. -/
def collectComments : List PostData → Except String (List TaggedComment)
  | [] => Except.ok []
  | pd :: rest =>
    match lookupField pd "id" with
    | none => Except.error "KeyError: id"
    | some pid =>
      match collectComments rest with
      | Except.error e => Except.error e
      | Except.ok tail =>
        Except.ok (((pd.comments.getD []).map
          (fun c => TaggedComment.mk c pid)) ++ tail)

/-- The value `scrape_reddit` hands back: the dict / json-source list
of post dicts, a single flat dataframe, or the posts/comments
dataframe pair of the split-relation shape.  (The json string itself
is the external serialization of the listed dicts.) -/
inductive RedditScrapeResult : Type where
  | dictR (posts : List PostData)
  | jsonR (posts : List PostData)
  | dfFlat (posts : List PostData)
  | dfSplit (posts : List PostData) (comments : List TaggedComment)
deriving DecidableEq, Repr

/-- Result-shaping block of `scrape_reddit` (lines 127-157).  In the
dataframe branch with comments requested, the `comments` column is
dropped (a `KeyError` when the frame is empty, i.e. no post row
exists), the tagged comment rows are accumulated, and — when that
accumulation is empty — the bare posts frame is returned instead of
the posts/comments pair. -/
def shapeResult (include_comments : Bool) (comment_limit : Nat)
    (return_type : String) (posts : List PostData) :
    Except String RedditScrapeResult :=
  if return_type = "dict" then Except.ok (RedditScrapeResult.dictR posts)
  else if return_type = "json" then Except.ok (RedditScrapeResult.jsonR posts)
  else
    if include_comments && decide (0 < comment_limit) then
      if posts.isEmpty then Except.error "KeyError: comments not found in axis"
      else
        match collectComments posts with
        | Except.error e => Except.error e
        | Except.ok all_comments =>
          let stripped := posts.map (fun pd => { pd with comments := none })
          if all_comments.isEmpty then Except.ok (RedditScrapeResult.dfFlat stripped)
          else Except.ok (RedditScrapeResult.dfSplit stripped all_comments)
    else Except.ok (RedditScrapeResult.dfFlat posts)

/-- `scrape_reddit` end to end, with the upstream modelled as a
function from the selected listing/search call to the submissions it
yields.  Credential checking, printing and the CSV sink are external
side effects and are not modelled. -/
def scrape_reddit (search_query : Option String) (sort_by time_filter : String)
    (limit : Nat) (fetch : UpstreamCall → List RPost)
    (include_fields : Option (List String)) (include_comments : Bool)
    (comment_limit : Nat) (min_score : Int) (exclude_nsfw : Bool)
    (return_type : String) : Except String RedditScrapeResult :=
  match getSubmissions search_query sort_by time_filter limit with
  | Except.error e => Except.error e
  | Except.ok call =>
    shapeResult include_comments comment_limit return_type
      (processAll (include_fields.getD defaultFields) include_comments comment_limit
        exclude_nsfw min_score (fetch call))

/-- The always special-cased fields of a `scrape_detailed_posts` post
dict (lines 256-258): sentinel author and absolute permalink. -/
structure DetailedSpecial where
  dauthor : String
  dpermalink : String
deriving DecidableEq, Repr

/-- Lines 256-258 of reddit_scrape.py:
`post_data['author'] = submission.author.name if submission.author
else '[deleted]'` and
`post_data['permalink'] = f"https://www.reddit.com{submission.permalink}"`. -/
def detailedSpecialFields (author : Option String) (permalink : String) :
    DetailedSpecial :=
  { dauthor := author.getD "[deleted]"
  , dpermalink := "https://www.reddit.com" ++ permalink }

/-! ## `scrape_twitter` / `scrape_user_timeline` (twitter_scrape.py) -/

/-- A raw ntscraper tweet dict as read by the scrapers: every key is
read with `.get(..., default)`, so each is optional here.  `media` is
independent of every claim and omitted. -/
structure RawTweet where
  tweet_id : Option String
  text : Option String
  username : Option String
  name : Option String
  likes : Option Int
  retweets : Option Int
  replies : Option Int
  date : Option String
  language : Option String
deriving DecidableEq, Repr

/-- The `tweet_data` dict built by `scrape_twitter` (lines 74-85). -/
structure TweetData where
  tid : String
  content : String
  user : String
  display_name : String
  turl : String
  like_count : Int
  retweet_count : Int
  reply_count : Int
  tdate : String
  tlanguage : String
deriving DecidableEq, Repr

/-- Projection of one raw tweet in `scrape_twitter`: every missing key
falls back to the `.get` default — in particular the author handle
(`'user'` key) falls back to the empty string, not to a sentinel. -/
def tweetToData (t : RawTweet) : TweetData :=
  { tid := t.tweet_id.getD ""
  , content := t.text.getD ""
  , user := t.username.getD ""
  , display_name := t.name.getD ""
  , turl := "https://twitter.com/" ++ t.username.getD "" ++ "/status/" ++ t.tweet_id.getD ""
  , like_count := t.likes.getD 0
  , retweet_count := t.retweets.getD 0
  , reply_count := t.replies.getD 0
  , tdate := t.date.getD ""
  , tlanguage := t.language.getD "" }

/-- Engagement filter of `scrape_twitter` (lines 68-72): a tweet is
skipped when its likes fall below `min_likes` or its retweets below
`min_retweets`. -/
def keepTweet (min_likes min_retweets : Int) (t : RawTweet) : Bool :=
  !(decide (t.likes.getD 0 < min_likes) || decide (t.retweets.getD 0 < min_retweets))

/-- Filter-and-project stage of `scrape_twitter`. -/
def scrape_twitter_items (min_likes min_retweets : Int) (raw : List RawTweet) :
    List TweetData :=
  (raw.filter (keepTweet min_likes min_retweets)).map tweetToData

/-- Abstract rendering of `json.dumps` on one tweet dict; the claims
only rely on the empty-list case of the list rendering below. -/
def tweetJson (t : TweetData) : String :=
  "\x7b\"id\": \"" ++ t.tid ++ "\", \"content\": \"" ++ t.content ++
    "\", \"user\": \"" ++ t.user ++ "\"\x7d"

/-- Abstract rendering of `json.dumps` on a list of tweet dicts;
`json_dumps [] = "[]"` as in Python. -/
def json_dumps (ts : List TweetData) : String :=
  "[" ++ String.intercalate ", " (ts.map tweetJson) ++ "]"

/-- The value a twitter-side scraper returns: the dict list, a json
string, or a dataframe of rows. -/
inductive TwResult (α : Type) : Type where
  | dictRes (items : List α)
  | jsonRes (s : String)
  | dfRes (rows : List α)
deriving DecidableEq, Repr

/-- The error-path return of both scrapers (twitter_scrape.py lines 64
and 140): `[] if return_type == 'dict' else pd.DataFrame() if
return_type == 'dataframe' else "[]"`. -/
def emptyTwResult (α : Type) (return_type : String) : TwResult α :=
  if return_type = "dict" then TwResult.dictRes []
  else if return_type = "dataframe" then TwResult.dfRes []
  else TwResult.jsonRes "[]"

/-- Success-path shaping of `scrape_twitter` (lines 94-99). -/
def shapeTweets (return_type : String) (tweets : List TweetData) : TwResult TweetData :=
  if return_type = "dict" then TwResult.dictRes tweets
  else if return_type = "json" then TwResult.jsonRes (json_dumps tweets)
  else TwResult.dfRes tweets

/-- `scrape_twitter` from the `try` block onward: the upstream fetch
(already including the `result.get("tweets", [])` key handling) is run
through `retry_operation` with the default of 3 attempts; any
exception escaping the retries is caught, printed, and converted into
the empty result of the requested shape (the `none` branch is the
`AttributeError` a `max_retries = 0` configuration would cause, also
caught).  Query-string construction is external to every claim and
not modelled. -/
def scrape_twitter (fetch : Nat → OpOutcome String (List RawTweet))
    (min_likes min_retweets : Int) (return_type : String) : TwResult TweetData :=
  match retry_operation fetch 3 with
  | some (Except.ok raw) =>
    shapeTweets return_type (scrape_twitter_items min_likes min_retweets raw)
  | some (Except.error _) => emptyTwResult TweetData return_type
  | none => emptyTwResult TweetData return_type

/-- The `tweet_data` dict built by `scrape_user_timeline` (lines
148-158); it has no `language` key and substitutes the requested
username for missing author data. -/
structure TimelineData where
  tid : String
  content : String
  user : String
  display_name : String
  turl : String
  like_count : Int
  retweet_count : Int
  reply_count : Int
  tdate : String
deriving DecidableEq, Repr

/-- Projection of one raw tweet in `scrape_user_timeline`: `user` is
the requested username itself. -/
def timelineToData (username : String) (t : RawTweet) : TimelineData :=
  { tid := t.tweet_id.getD ""
  , content := t.text.getD ""
  , user := username
  , display_name := t.name.getD username
  , turl := "https://twitter.com/" ++ username ++ "/status/" ++ t.tweet_id.getD ""
  , like_count := t.likes.getD 0
  , retweet_count := t.retweets.getD 0
  , reply_count := t.replies.getD 0
  , tdate := t.date.getD "" }

/-- Abstract `json.dumps` for timeline rows (empty list gives `"[]"`). -/
def timelineJson (t : TimelineData) : String :=
  "\x7b\"id\": \"" ++ t.tid ++ "\", \"user\": \"" ++ t.user ++ "\"\x7d"

def json_dumps_timeline (ts : List TimelineData) : String :=
  "[" ++ String.intercalate ", " (ts.map timelineJson) ++ "]"

/-- Success-path shaping of `scrape_user_timeline` (lines 167-172). -/
def shapeTimeline (return_type : String) (tweets : List TimelineData) :
    TwResult TimelineData :=
  if return_type = "dict" then TwResult.dictRes tweets
  else if return_type = "json" then TwResult.jsonRes (json_dumps_timeline tweets)
  else TwResult.dfRes tweets

/-- `scrape_user_timeline` from the `try` block onward: same retry,
same catch-and-return-empty error path (lines 135-140), a
likes-only engagement filter (lines 144-146). -/
def scrape_user_timeline (username : String)
    (fetch : Nat → OpOutcome String (List RawTweet)) (min_likes : Int)
    (return_type : String) : TwResult TimelineData :=
  match retry_operation fetch 3 with
  | some (Except.ok raw) =>
    shapeTimeline return_type
      ((raw.filter (fun t => !(decide (t.likes.getD 0 < min_likes)))).map
        (timelineToData username))
  | some (Except.error _) => emptyTwResult TimelineData return_type
  | none => emptyTwResult TimelineData return_type

/-! ## Concrete scenario inputs used by the claim theorems -/

/-- The value `scrape_reddit` stores under a requested field name
(first binding): sentinel author, raw timestamp, otherwise the raw
attribute with `None` fallback. -/
def projVal (p : RPost) (f : String) : FieldVal :=
  if f = "author" then FieldVal.vs (p.pauthor.getD "[deleted]")
  else if f = "created_utc" then FieldVal.vn p.created_utc
  else (postAttr p f).getD FieldVal.vnull

/-- A concrete raw tweet whose upstream author is absent (no `user`
dict), used to refute C4 as stated. -/
def c4Tweet : RawTweet :=
  { tweet_id := some "1", text := some "hi", username := none, name := none
  , likes := some 5, retweets := some 1, replies := some 0
  , date := some "2024-01-01", language := some "en" }

/-- A concrete post whose upstream permalink is a relative path, used
to refute C6 as stated on the `scrape_reddit` entry point. -/
def c6Post : RPost :=
  { pid := "p1", title := "t", score := 3, url := "u", pauthor := some "al"
  , created_utc := 0, num_comments := 0, selftext := ""
  , permalink := "/r/test/comments/abc", over_18 := false, comments := [] }

/-- Concrete posts for the C7 scenario: post `a` with 3 direct
comments and post `b` with none. -/
def c7PostA : RPost :=
  { pid := "a", title := "ta", score := 7, url := "ua", pauthor := some "au"
  , created_utc := 1, num_comments := 3, selftext := "", permalink := "/r/a"
  , over_18 := false
  , comments :=
      [RComment.mk "c1" (some "u1") "b1" 1 11 "/c1" [],
       RComment.mk "c2" none "b2" 2 12 "/c2" [],
       RComment.mk "c3" (some "u3") "b3" 3 13 "/c3" []] }

def c7PostB : RPost :=
  { pid := "b", title := "tb", score := 8, url := "ub", pauthor := some "bu"
  , created_utc := 2, num_comments := 0, selftext := "", permalink := "/r/b"
  , over_18 := false, comments := [] }

/-- The comment table of the C7 scenario: 3 rows, each tagged with
post `a`'s id. -/
def c7ExpectedComments : List TaggedComment :=
  [{ crec := { cid := "c1", cauthor := "u1", cbody := "b1", cscore := 1, ccreated := 11 }
   , post_id := FieldVal.vs "a" },
   { crec := { cid := "c2", cauthor := "[deleted]", cbody := "b2", cscore := 2, ccreated := 12 }
   , post_id := FieldVal.vs "a" },
   { crec := { cid := "c3", cauthor := "u3", cbody := "b3", cscore := 3, ccreated := 13 }
   , post_id := FieldVal.vs "a" }]

/-- Concrete posts with scores 5, 15, 20, 3 for the C8 scenario. -/
def c8Posts : List RPost :=
  [{ pid := "s1", title := "t1", score := 5, url := "u", pauthor := some "a1"
   , created_utc := 0, num_comments := 0, selftext := "", permalink := "/1"
   , over_18 := false, comments := [] },
   { pid := "s2", title := "t2", score := 15, url := "u", pauthor := some "a2"
   , created_utc := 0, num_comments := 0, selftext := "", permalink := "/2"
   , over_18 := false, comments := [] },
   { pid := "s3", title := "t3", score := 20, url := "u", pauthor := some "a3"
   , created_utc := 0, num_comments := 0, selftext := "", permalink := "/3"
   , over_18 := false, comments := [] },
   { pid := "s4", title := "t4", score := 3, url := "u", pauthor := some "a4"
   , created_utc := 0, num_comments := 0, selftext := "", permalink := "/4"
   , over_18 := false, comments := [] }]

/-- Concrete posts with no upstream comments for the C10 scenario. -/
def c10Posts : List RPost :=
  [{ pid := "x", title := "tx", score := 1, url := "u", pauthor := some "ax"
   , created_utc := 0, num_comments := 0, selftext := "", permalink := "/x"
   , over_18 := false, comments := [] },
   { pid := "y", title := "ty", score := 2, url := "u", pauthor := some "ay"
   , created_utc := 0, num_comments := 0, selftext := "", permalink := "/y"
   , over_18 := false, comments := [] }]

/-- A fetch that fails on every attempt, used against C5. -/
def c5FailFetch : Nat → OpOutcome String (List RawTweet) :=
  fun i => Except.error ("connection error " ++ toString i)

/-! ## Helper lemmas and claim theorems -/

/-- If the first `k` invocations starting at index `attempt` fail and
invocation `attempt + k` succeeds with `v`, with `k ≤ rem`, then the
retry loop returns `v` after exactly `k + 1` invocations. -/
theorem retryGo_succeeds {E A : Type} (op : Nat → OpOutcome E A) (v : A) :
    ∀ (k rem attempt : Nat), k ≤ rem →
      (∀ i, i < k → ∃ e, op (attempt + i) = Except.error e) →
      op (attempt + k) = Except.ok v →
      retryGo op attempt rem = Except.ok v ∧ retryGoCount op attempt rem = k + 1 := by
  intro k
  induction k with
  | zero =>
    intro rem attempt _ _ hop
    simp only [Nat.add_zero] at hop
    cases rem with
    | zero => simp [retryGo, retryGoCount, hop]
    | succ r => simp [retryGo, retryGoCount, hop]
  | succ k ih =>
    intro rem attempt hle hfail hop
    obtain ⟨e, he⟩ := hfail 0 (Nat.succ_pos k)
    simp only [Nat.add_zero] at he
    cases rem with
    | zero => omega
    | succ r =>
      have hle' : k ≤ r := Nat.succ_le_succ_iff.mp hle
      have hfail' : ∀ i, i < k → ∃ e, op (attempt + 1 + i) = Except.error e := by
        intro i hi
        have := hfail (i + 1) (Nat.succ_lt_succ hi)
        simpa [Nat.add_comm, Nat.add_assoc, Nat.add_left_comm] using this
      have hop' : op (attempt + 1 + k) = Except.ok v := by
        have : attempt + 1 + k = attempt + (k + 1) := by omega
        rw [this]; exact hop
      obtain ⟨h1, h2⟩ := ih r (attempt + 1) hle' hfail' hop'
      constructor
      · simp [retryGo, he, h1]
      · simp [retryGoCount, he, h2]
        omega

/-- If every invocation from index `attempt` through `attempt + rem`
fails, the retry loop surfaces the outcome of the last invocation
(its error, unwrapped) after exactly `rem + 1` invocations. -/
theorem retryGo_all_fail {E A : Type} (op : Nat → OpOutcome E A) :
    ∀ (rem attempt : Nat),
      (∀ i, i ≤ rem → ∃ e, op (attempt + i) = Except.error e) →
      retryGo op attempt rem = op (attempt + rem) ∧
        retryGoCount op attempt rem = rem + 1 := by
  intro rem
  induction rem with
  | zero =>
    intro attempt _
    simp [retryGo, retryGoCount]
  | succ r ih =>
    intro attempt hfail
    obtain ⟨e, he⟩ := hfail 0 (Nat.zero_le _)
    simp only [Nat.add_zero] at he
    have hfail' : ∀ i, i ≤ r → ∃ e, op (attempt + 1 + i) = Except.error e := by
      intro i hi
      have := hfail (i + 1) (Nat.succ_le_succ hi)
      simpa [Nat.add_comm, Nat.add_assoc, Nat.add_left_comm] using this
    obtain ⟨h1, h2⟩ := ih (attempt + 1) hfail'
    constructor
    · have : attempt + 1 + r = attempt + (r + 1) := by omega
      rw [← this]
      simp [retryGo, he, h1]
    · simp [retryGoCount, he, h2]
      omega

/-- C1: for an operation that fails on its first `N - 1` invocations and
succeeds on the `N`-th (`1 ≤ N ≤ max_retries`), `retry_operation`
performs exactly `N` invocations and returns the `N`-th invocation's
success value; for an operation failing on every invocation,
`retry_operation` performs exactly `max_retries` invocations and the
error surfaced to the caller is the last invocation's error, unwrapped. -/
theorem C1_retry_controller {E A : Type} (op : Nat → OpOutcome E A)
    (max_retries N : Nat) (v : A)
    (hN : 1 ≤ N) (hNmax : N ≤ max_retries) :
    ((∀ i, i < N - 1 → ∃ e, op i = Except.error e) → op (N - 1) = Except.ok v →
       retry_operation op max_retries = some (Except.ok v) ∧
         retry_attempts op max_retries = N) ∧
    ((∀ i, i < max_retries → ∃ e, op i = Except.error e) →
       ∃ e, op (max_retries - 1) = Except.error e ∧
         retry_operation op max_retries = some (Except.error e) ∧
           retry_attempts op max_retries = max_retries) := by
  obtain ⟨m, rfl⟩ : ∃ m, max_retries = m + 1 :=
    ⟨max_retries - 1, by omega⟩
  constructor
  · intro hfail hsucc
    have hk : N - 1 ≤ m := by omega
    have hfail' : ∀ i, i < N - 1 → ∃ e, op (0 + i) = Except.error e := by
      intro i hi; simpa using hfail i hi
    have hsucc' : op (0 + (N - 1)) = Except.ok v := by simpa using hsucc
    obtain ⟨h1, h2⟩ := retryGo_succeeds op v (N - 1) m 0 hk hfail' hsucc'
    refine ⟨?_, ?_⟩
    · simp [retry_operation, h1]
    · simp only [retry_attempts, h2]; omega
  · intro hfail
    have hfail' : ∀ i, i ≤ m → ∃ e, op (0 + i) = Except.error e := by
      intro i hi; simpa using hfail i (by omega)
    obtain ⟨h1, h2⟩ := retryGo_all_fail op m 0 hfail'
    obtain ⟨e, he⟩ := hfail m (by omega)
    refine ⟨e, ?_, ?_, ?_⟩
    · simpa using he
    · simp only [retry_operation, h1]
      simp only [Nat.zero_add]
      rw [he]
    · simp [retry_attempts, h2]

/-- Witness for C1 at a concrete operation that fails twice then
succeeds on the third invocation, with the default of 3 attempts, and
a concrete operation that always fails. -/
theorem C1_retry_controller_witness :
    (retry_operation (fun i => if i < 2 then Except.error "boom" else Except.ok 7) 3 =
        some (Except.ok 7) ∧
      retry_attempts (fun i => if i < 2 then Except.error "boom" else Except.ok 7) 3 = 3) ∧
    (∃ e, (fun i => (Except.error (toString i) : OpOutcome String Nat)) (3 - 1) =
        Except.error e ∧
      retry_operation (fun i => (Except.error (toString i) : OpOutcome String Nat)) 3 =
          some (Except.error e) ∧
        retry_attempts (fun i => (Except.error (toString i) : OpOutcome String Nat)) 3 = 3) := by
  constructor
  · exact (C1_retry_controller (fun i => if i < 2 then Except.error "boom" else Except.ok 7)
      3 3 7 (by decide) (by decide)).1
      (by intro i hi; exact ⟨"boom", by simp; omega⟩) (by simp)
  · exact (C1_retry_controller (fun i => (Except.error (toString i) : OpOutcome String Nat))
      3 3 0 (by decide) (by decide)).2
      (by intro i _; exact ⟨toString i, rfl⟩)

/-- Membership in the materialized reply list is exactly being the
(non-pruned) image of an input reply. -/
theorem mem_get_comment_list (maxDepth depth : Nat) (d : CommentData) :
    ∀ cs : List RComment,
      d ∈ get_comment_list maxDepth depth cs ↔
        ∃ c ∈ cs, get_comment_info maxDepth depth c = some d := by
  intro cs
  induction cs with
  | nil => simp [get_comment_list]
  | cons c cs ih =>
    simp only [get_comment_list]
    cases h : get_comment_info maxDepth depth c with
    | none =>
      simp only [ih, List.mem_cons]
      constructor
      · rintro ⟨c', hc', h'⟩; exact ⟨c', Or.inr hc', h'⟩
      · rintro ⟨c', hc' | hc', h'⟩
        · subst hc'; rw [h] at h'; cases h'
        · exact ⟨c', hc', h'⟩
    | some d' =>
      simp only [List.mem_cons, ih]
      constructor
      · rintro (rfl | ⟨c', hc', h'⟩)
        · exact ⟨c, Or.inl rfl, h⟩
        · exact ⟨c', Or.inr hc', h'⟩
      · rintro ⟨c', hc' | hc', h'⟩
        · subst hc'; rw [h] at h'; cases h'; exact Or.inl rfl
        · exact Or.inr ⟨c', hc', h'⟩

theorem depthWithinList_all (k : Nat) :
    ∀ ts : List CommentData,
      depthWithinList k ts = true ↔ ∀ t ∈ ts, depthWithin k t = true := by
  intro ts
  induction ts with
  | nil => simp [depthWithinList]
  | cons t ts ih => simp [depthWithinList, ih]

theorem cdAllAbsList_all :
    ∀ ts : List CommentData,
      cdAllAbsList ts = true ↔ ∀ t ∈ ts, cdAllAbs t = true := by
  intro ts
  induction ts with
  | nil => simp [cdAllAbsList]
  | cons t ts ih => simp [cdAllAbsList, ih]

/-- Size-bounded strong-induction form of the depth invariant of
`get_comment_info`. -/
theorem gci_depth_aux :
    ∀ (n : Nat) (c : RComment), sizeOf c ≤ n → ∀ (maxDepth depth : Nat) (t : CommentData),
      get_comment_info maxDepth depth c = some t →
      depth ≤ maxDepth ∧ depthWithin (maxDepth - depth) t = true := by
  intro n
  induction n with
  | zero =>
    intro c hsz
    exfalso
    cases c with
    | mk cid ca cb cs cc cp rs => simp_arith at hsz
  | succ n ih =>
    intro c hsz maxDepth depth t h
    cases c with
    | mk cid ca cb cs cc cp rs =>
      simp only [get_comment_info] at h
      by_cases hd : maxDepth < depth
      · simp [hd] at h
      · simp only [if_neg hd] at h
        have hle : depth ≤ maxDepth := Nat.le_of_not_lt hd
        refine ⟨hle, ?_⟩
        have hreps : ∀ d ∈ get_comment_list maxDepth (depth + 1) rs,
            depth + 1 ≤ maxDepth ∧ depthWithin (maxDepth - (depth + 1)) d = true := by
          intro d hdmem
          obtain ⟨c', hc', h'⟩ := (mem_get_comment_list maxDepth (depth + 1) d rs).mp hdmem
          have hsz' : sizeOf c' ≤ n := by
            have h1 : sizeOf c' < sizeOf rs := List.sizeOf_lt_of_mem hc'
            have h2 : sizeOf (RComment.mk cid ca cb cs cc cp rs) = 1 + sizeOf cid +
                sizeOf ca + sizeOf cb + sizeOf cs + sizeOf cc + sizeOf cp + sizeOf rs := by
              simp
            omega
          exact ih c' hsz' maxDepth (depth + 1) d h'
        simp only [Option.some.injEq] at h
        subst h
        cases hmd : maxDepth - depth with
        | zero =>
          simp only [depthWithin]
          rw [List.isEmpty_iff]
          by_contra hne
          obtain ⟨d, hdmem⟩ := List.exists_mem_of_ne_nil _ hne
          have := (hreps d hdmem).1
          omega
        | succ k =>
          simp only [depthWithin]
          rw [depthWithinList_all]
          intro d hdmem
          have h2 := (hreps d hdmem).2
          have : maxDepth - (depth + 1) = k := by omega
          rwa [this] at h2

/-- Size-bounded strong-induction form of the absolute-permalink
invariant of `get_comment_info`. -/
theorem gci_abs_aux :
    ∀ (n : Nat) (c : RComment), sizeOf c ≤ n → ∀ (maxDepth depth : Nat) (t : CommentData),
      get_comment_info maxDepth depth c = some t → cdAllAbs t = true := by
  intro n
  induction n with
  | zero =>
    intro c hsz
    exfalso
    cases c with
    | mk cid ca cb cs cc cp rs => simp_arith at hsz
  | succ n ih =>
    intro c hsz maxDepth depth t h
    cases c with
    | mk cid ca cb cs cc cp rs =>
      simp only [get_comment_info] at h
      by_cases hd : maxDepth < depth
      · simp [hd] at h
      · simp only [if_neg hd] at h
        simp only [Option.some.injEq] at h
        subst h
        simp only [cdAllAbs, Bool.and_eq_true]
        constructor
        · rw [hasRedditBase, List.isPrefixOf_iff_prefix]
          exact ⟨cp.data, by simp [String.data_append]⟩
        · rw [cdAllAbsList_all]
          intro d hdmem
          obtain ⟨c', hc', h'⟩ := (mem_get_comment_list maxDepth (depth + 1) d rs).mp hdmem
          have hsz' : sizeOf c' ≤ n := by
            have h1 : sizeOf c' < sizeOf rs := List.sizeOf_lt_of_mem hc'
            have h2 : sizeOf (RComment.mk cid ca cb cs cc cp rs) = 1 + sizeOf cid +
                sizeOf ca + sizeOf cb + sizeOf cs + sizeOf cc + sizeOf cp + sizeOf rs := by
              simp
            omega
          exact ih c' hsz' maxDepth (depth + 1) d h'

/-- C2: a comment tree materialized by `get_comment_info` starting at
depth 0 never contains a node deeper than the configured maximum
(`depthWithin` additionally forces a node at the limit to have an
empty reply list, so over-deep branches are absent, not placeholders);
and on the synthetic depth-3 tree with `maxDepth = 1` the result is
exactly the depth-0 and depth-1 nodes. -/
theorem C2_comment_depth_limit :
    (∀ (maxDepth : Nat) (c : RComment) (t : CommentData),
        get_comment_info maxDepth 0 c = some t → depthWithin maxDepth t = true) ∧
      get_comment_info 1 0 c2Tree = some c2Expected := by
  constructor
  · intro md c t h
    have h2 := (gci_depth_aux (sizeOf c) c le_rfl md 0 t h).2
    simpa using h2
  · rfl

/-- Witness for C2: the general depth bound applied to the concrete
depth-3 tree with `maxDepth = 1`. -/
theorem C2_comment_depth_limit_witness : depthWithin 1 c2Expected = true :=
  C2_comment_depth_limit.1 1 c2Tree c2Expected rfl

/-- C3: with an empty (falsy) search query, each of the five sort
strategies dispatches to its upstream listing call, the time window is
forwarded only for `top` and `controversial` (the same call is issued
whatever the window is for the other three), and any other sort value
makes the whole of `scrape_reddit` fail with the invalid-sort error —
the result is this error for every upstream `fetch`, so no item is
fetched or produced. -/
theorem C3_sort_strategies (esq : Option String) (hq : truthyStr esq = false)
    (tf : String) (lim : Nat) :
    (getSubmissions esq "new" tf lim = Except.ok (UpstreamCall.newSort lim) ∧
     getSubmissions esq "hot" tf lim = Except.ok (UpstreamCall.hotSort lim) ∧
     getSubmissions esq "top" tf lim = Except.ok (UpstreamCall.topSort tf lim) ∧
     getSubmissions esq "rising" tf lim = Except.ok (UpstreamCall.risingSort lim) ∧
     getSubmissions esq "controversial" tf lim =
       Except.ok (UpstreamCall.controversialSort tf lim)) ∧
    (∀ s, s ∉ ["new", "hot", "top", "rising", "controversial"] →
      getSubmissions esq s tf lim = Except.error ("Invalid sort_by value: " ++ s) ∧
      ∀ (fetch : UpstreamCall → List RPost) fields ic cl ms en rt,
        scrape_reddit esq s tf lim fetch fields ic cl ms en rt =
          Except.error ("Invalid sort_by value: " ++ s)) := by
  constructor
  · refine ⟨?_, ?_, ?_, ?_, ?_⟩ <;> simp [getSubmissions, hq]
  · intro s hs
    simp only [List.mem_cons, List.not_mem_nil, or_false, not_or] at hs
    obtain ⟨h1, h2, h3, h4, h5⟩ := hs
    have hdisp : getSubmissions esq s tf lim =
        Except.error ("Invalid sort_by value: " ++ s) := by
      simp [getSubmissions, hq, h1, h2, h3, h4, h5]
    refine ⟨hdisp, ?_⟩
    intro fetch fields ic cl ms en rt
    simp [scrape_reddit, hdisp]

/-- Witness for C3: a concrete dispatch with no search query, the
five valid sorts, and the invalid sort value `"best"`. -/
theorem C3_sort_strategies_witness :
    getSubmissions none "top" "week" 5 = Except.ok (UpstreamCall.topSort "week" 5) ∧
    scrape_reddit none "best" "week" 5 (fun _ => []) none false 0 0 true "dict" =
      Except.error ("Invalid sort_by value: " ++ "best") :=
  ⟨(C3_sort_strategies none rfl "week" 5).1.2.2.1,
   ((C3_sort_strategies none rfl "week" 5).2 "best" (by decide)).2
     (fun _ => []) none false 0 0 true "dict"⟩

/-- C9: a non-empty search query selects the search branch before sort
validation, in both `scrape_reddit` and `scrape_detailed_posts`; the
sort string — recognized or not — is passed through to the upstream
search call unchecked, so no invalid-sort error can be raised. -/
theorem C9_search_skips_sort_validation (q : String) (hq : q ≠ "")
    (sort_by tf : String) (lim : Nat) :
    getSubmissions (some q) sort_by tf lim =
        Except.ok (UpstreamCall.search q sort_by tf lim) ∧
      getSubmissionsDetailed (some q) sort_by tf lim =
        Except.ok (UpstreamCall.search q sort_by tf lim) := by
  constructor <;> simp [getSubmissions, getSubmissionsDetailed, truthyStr, hq]

/-- Witness for C9: concrete search query with an unrecognized sort
value. -/
theorem C9_search_skips_sort_validation_witness :
    getSubmissions (some "tesla") "bogus" "all" 10 =
        Except.ok (UpstreamCall.search "tesla" "bogus" "all" 10) ∧
      getSubmissionsDetailed (some "tesla") "bogus" "all" 10 =
        Except.ok (UpstreamCall.search "tesla" "bogus" "all" 10) :=
  C9_search_skips_sort_validation "tesla" (by decide) "bogus" "all" 10

theorem find?_projectField_self (p : RPost) (k : String) :
    (projectField p k).find? (fun kv => kv.1 = k) = some (k, projVal p k) := by
  by_cases h1 : k = "author"
  · subst h1; simp [projectField, projVal, List.find?]
  · by_cases h2 : k = "created_utc"
    · subst h2; simp [projectField, projVal, List.find?, h1]
    · simp only [projectField, projVal, if_neg h1, if_neg h2]
      cases hpa : postAttr p k <;> simp [hpa, List.find?]

theorem find?_projectField_other (p : RPost) (f k : String) (hf : f ≠ k)
    (hk : k ≠ "created_date") :
    (projectField p f).find? (fun kv => kv.1 = k) = none := by
  by_cases h1 : f = "author"
  · subst h1; simp [projectField, List.find?, hf]
  · by_cases h2 : f = "created_utc"
    · subst h2; simp [projectField, List.find?, h1, hf, Ne.symm hk]
    · simp only [projectField, if_neg h1, if_neg h2]
      cases hpa : postAttr p f <;> simp [hpa, List.find?, hf]

/-- Looking up a requested field on a projected post yields exactly
the value `scrape_reddit` computes for it (any key other than the
derived `created_date` is written only by its own loop iteration). -/
theorem lookupField_processPost (p : RPost) (ic : Bool) (cl : Nat) (k : String)
    (hk : k ≠ "created_date") :
    ∀ fields : List String, k ∈ fields →
      lookupField (processPost fields ic cl p) k = some (projVal p k) := by
  intro fields
  induction fields with
  | nil => intro h; cases h
  | cons f fs ih =>
    intro hmem
    simp only [lookupField, processPost, List.flatMap_cons, List.find?_append]
    by_cases hf : f = k
    · subst hf
      rw [find?_projectField_self]
      rfl
    · rw [find?_projectField_other p f k hf hk, Option.none_or]
      have hmem' : k ∈ fs := by
        cases hmem with
        | head => exact absurd rfl hf
        | tail _ h => exact h
      have := ih hmem'
      simpa [lookupField, processPost] using this

/-- Every materialized comment node is the value of a
`get_comment_info` invocation on an upstream comment; its author is
that comment's author under the `'[deleted]'` sentinel rule. -/
theorem gci_author (maxDepth depth : Nat) (c : RComment) (t : CommentData)
    (h : get_comment_info maxDepth depth c = some t) :
    t.author = (c.author).getD "[deleted]" := by
  cases c with
  | mk cid ca cb cs cc cp rs =>
    simp only [get_comment_info] at h
    by_cases hd : maxDepth < depth
    · simp [hd] at h
    · simp only [if_neg hd, Option.some.injEq] at h
      subst h
      rfl

/-- The permalink of a materialized comment node is the upstream
path prefixed with the base URL. -/
theorem gci_permalink (maxDepth depth : Nat) (c : RComment) (t : CommentData)
    (h : get_comment_info maxDepth depth c = some t) :
    t.permalink = "https://www.reddit.com" ++ c.permalink := by
  cases c with
  | mk cid ca cb cs cc cp rs =>
    simp only [get_comment_info] at h
    by_cases hd : maxDepth < depth
    · simp [hd] at h
    · simp only [if_neg hd, Option.some.injEq] at h
      subst h
      rfl

/-- C4 counterexample: `scrape_twitter` materializes `c4Tweet`, whose
upstream author is absent, with the empty string — not the
`'[deleted]'` sentinel — as its author (`user`) value, so the claim
that the author field is always the upstream handle or the sentinel is
false at this input. -/
theorem C4_author_sentinel_counterexample :
    c4Tweet.username = none ∧
      (scrape_twitter_items 0 0 [c4Tweet]).map TweetData.user = [""] ∧
      ("" : String) ≠ "[deleted]" := by
  refine ⟨rfl, rfl, by decide⟩

/-- C4 as amended: on the Reddit side the author field, whenever it is
produced, is the upstream handle or the `'[deleted]'` sentinel — for
`scrape_reddit` items this is conditional on `'author'` being among
the included fields; for `scrape_reddit` comment records,
`scrape_detailed_posts` items and `get_comment_info` tree nodes it is
unconditional.  On the Twitter side every item carries a (non-null)
author string, but the fallback for an absent upstream author is the
empty string, not the sentinel. -/
theorem C4_author_sentinel :
    (∀ (p : RPost) (fields : List String) (ic : Bool) (cl : Nat),
        "author" ∈ fields →
        lookupField (processPost fields ic cl p) "author" =
          some (FieldVal.vs (p.pauthor.getD "[deleted]"))) ∧
    (∀ c : RComment, (commentToRec c).cauthor = (c.author).getD "[deleted]") ∧
    (∀ (a : Option String) (pl : String),
        (detailedSpecialFields a pl).dauthor = a.getD "[deleted]") ∧
    (∀ (maxDepth depth : Nat) (c : RComment) (t : CommentData),
        get_comment_info maxDepth depth c = some t →
        t.author = (c.author).getD "[deleted]") ∧
    (∀ t : RawTweet, (tweetToData t).user = t.username.getD "") ∧
    (∀ (u : String) (t : RawTweet), (timelineToData u t).user = u) := by
  refine ⟨?_, ?_, ?_, gci_author, ?_, ?_⟩
  · intro p fields ic cl hmem
    have h := lookupField_processPost p ic cl "author" (by decide) fields hmem
    rw [h]
    simp [projVal]
  · intro c; cases c with
    | mk cid ca cb cs cc cp rs => rfl
  · intro a pl; rfl
  · intro t; rfl
  · intro u t; rfl

/-- Witness for C4 as amended, at a concrete post with a deleted
author, a concrete comment, and the counterexample tweet. -/
theorem C4_author_sentinel_witness :
    lookupField
        (processPost ["id", "author"] false 0
          { pid := "p", title := "t", score := 1, url := "u", pauthor := none
          , created_utc := 0, num_comments := 0, selftext := "", permalink := "/r/p"
          , over_18 := false, comments := [] }) "author" =
      some (FieldVal.vs "[deleted]") :=
  C4_author_sentinel.1
    { pid := "p", title := "t", score := 1, url := "u", pauthor := none
    , created_utc := 0, num_comments := 0, selftext := "", permalink := "/r/p"
    , over_18 := false, comments := [] }
    ["id", "author"] false 0 (by decide)

/-- C6 counterexample: a `scrape_reddit` run with `'permalink'` among
`include_fields` returns the upstream's relative path unchanged — the
produced permalink value does not start with the base URL, so the
claim that every produced permalink is absolute is false at this
input. -/
theorem C6_absolute_permalink_counterexample :
    scrape_reddit none "hot" "all" 10 (fun _ => [c6Post]) (some ["permalink"])
        false 0 0 true "dict" =
      Except.ok (RedditScrapeResult.dictR
        [{ fields := [("permalink", FieldVal.vs "/r/test/comments/abc")]
         , comments := none }]) ∧
      hasRedditBase "/r/test/comments/abc" = false := by
  refine ⟨rfl, by decide⟩

/-- C6 as amended: the permalink is synthesized as an absolute URL
(base-prefixed) in `scrape_detailed_posts` — both for the post dict
and for every node of every materialized comment tree — but
`scrape_reddit` copies a requested `permalink` field verbatim from the
upstream attribute, so a relative upstream path stays relative there. -/
theorem C6_absolute_permalink :
    (∀ (maxDepth depth : Nat) (c : RComment) (t : CommentData),
        get_comment_info maxDepth depth c = some t →
        cdAllAbs t = true ∧ t.permalink = "https://www.reddit.com" ++ c.permalink) ∧
    (∀ (a : Option String) (pl : String),
        (detailedSpecialFields a pl).dpermalink = "https://www.reddit.com" ++ pl) ∧
    (∀ (p : RPost) (fields : List String) (ic : Bool) (cl : Nat),
        "permalink" ∈ fields →
        lookupField (processPost fields ic cl p) "permalink" =
          some (FieldVal.vs p.permalink)) := by
  refine ⟨?_, ?_, ?_⟩
  · intro md d c t h
    exact ⟨gci_abs_aux (sizeOf c) c le_rfl md d t h, gci_permalink md d c t h⟩
  · intro a pl; rfl
  · intro p fields ic cl hmem
    have h := lookupField_processPost p ic cl "permalink" (by decide) fields hmem
    rw [h]
    simp [projVal, postAttr]

/-- Witness for C6 as amended, at the concrete tree of the C2 scenario
and the concrete relative-permalink post of the counterexample. -/
theorem C6_absolute_permalink_witness :
    (cdAllAbs c2Expected = true ∧
        c2Expected.permalink = "https://www.reddit.com" ++ c2Tree.permalink) ∧
      lookupField (processPost ["permalink"] false 0 c6Post) "permalink" =
        some (FieldVal.vs c6Post.permalink) :=
  ⟨C6_absolute_permalink.1 1 0 c2Tree c2Expected rfl,
   C6_absolute_permalink.2.2 c6Post ["permalink"] false 0 (by decide)⟩

/-- Every row of the split-relation comment table is tagged with the
id of the post whose nested comment list it came from. -/
theorem collectComments_mem :
    ∀ (posts : List PostData) (tcs : List TaggedComment),
      collectComments posts = Except.ok tcs →
      ∀ tc ∈ tcs, ∃ pd ∈ posts,
        lookupField pd "id" = some tc.post_id ∧ tc.crec ∈ (pd.comments.getD []) := by
  intro posts
  induction posts with
  | nil =>
    intro tcs h tc htc
    simp only [collectComments, Except.ok.injEq] at h
    subst h
    cases htc
  | cons pd rest ih =>
    intro tcs h tc htc
    simp only [collectComments] at h
    cases hid : lookupField pd "id" with
    | none => rw [hid] at h; cases h
    | some pid =>
      rw [hid] at h
      cases hrest : collectComments rest with
      | error e => rw [hrest] at h; cases h
      | ok tail =>
        rw [hrest] at h
        simp only [Except.ok.injEq] at h
        subst h
        rcases List.mem_append.mp htc with hl | hr
        · obtain ⟨c, hc, rfl⟩ := List.mem_map.mp hl
          exact ⟨pd, List.mem_cons_self pd rest, hid, hc⟩
        · obtain ⟨pd', hpd', h1, h2⟩ := ih tail hrest tc hr
          exact ⟨pd', List.mem_cons_of_mem pd hpd', h1, h2⟩

/-- C7: in the split-relation shape every comment row carries the id
of its owning post, so the two tables can be rejoined by that key; and
on 2 posts with 3 and 0 comments the comment table has exactly 3 rows,
all tagged with the first post's id and none with the second's. -/
theorem C7_split_relation_keys :
    (∀ (posts : List PostData) (tcs : List TaggedComment),
        collectComments posts = Except.ok tcs →
        ∀ tc ∈ tcs, ∃ pd ∈ posts,
          lookupField pd "id" = some tc.post_id ∧ tc.crec ∈ (pd.comments.getD [])) ∧
    scrape_reddit none "hot" "all" 10 (fun _ => [c7PostA, c7PostB]) (some ["id"])
        true 3 0 true "dataframe" =
      Except.ok (RedditScrapeResult.dfSplit
        [{ fields := [("id", FieldVal.vs "a")], comments := none },
         { fields := [("id", FieldVal.vs "b")], comments := none }]
        c7ExpectedComments) ∧
    c7ExpectedComments.length = 3 ∧
    (∀ tc ∈ c7ExpectedComments,
      tc.post_id = FieldVal.vs "a" ∧ tc.post_id ≠ FieldVal.vs "b") := by
  refine ⟨collectComments_mem, rfl, rfl, ?_⟩
  decide

/-- Witness for C7: the rejoin-key property applied to the comment
table computed in the scenario run. -/
theorem C7_split_relation_keys_witness :
    ∀ tc ∈ c7ExpectedComments,
      ∃ pd ∈ [({ fields := [("id", FieldVal.vs "a")]
               , comments := some ((c7PostA.comments.take 3).map commentToRec) } : PostData),
              { fields := [("id", FieldVal.vs "b")], comments := some [] }],
        lookupField pd "id" = some tc.post_id ∧ tc.crec ∈ (pd.comments.getD []) :=
  C7_split_relation_keys.1
    [{ fields := [("id", FieldVal.vs "a")]
     , comments := some ((c7PostA.comments.take 3).map commentToRec) },
     { fields := [("id", FieldVal.vs "b")], comments := some [] }]
    c7ExpectedComments rfl

/-- C8: every record in the output of the filter-and-project stage
comes from an upstream item meeting the minimum-score threshold (an
item below the threshold is dropped before projection and appears in
no form; the result carries no count of dropped items), on both the
Reddit and Twitter sides; and with `min_score = 10` over scores
`[5, 15, 20, 3]` the run returns exactly the two qualifying items in
upstream order. -/
theorem C8_min_score_filter :
    (∀ (fields : List String) (ic : Bool) (cl : Nat) (excl : Bool) (ms : Int)
        (subs : List RPost) (pd : PostData),
        pd ∈ processAll fields ic cl excl ms subs →
        ∃ p ∈ subs, ¬(p.score < ms) ∧ pd = processPost fields ic cl p) ∧
    (∀ (ml mr : Int) (raw : List RawTweet) (td : TweetData),
        td ∈ scrape_twitter_items ml mr raw →
        ∃ t ∈ raw, ¬(t.likes.getD 0 < ml) ∧ ¬(t.retweets.getD 0 < mr) ∧
          td = tweetToData t) ∧
    scrape_reddit none "hot" "all" 10 (fun _ => c8Posts) (some ["score"]) false 0 10
        true "dataframe" =
      Except.ok (RedditScrapeResult.dfFlat
        [{ fields := [("score", FieldVal.vi 15)], comments := none },
         { fields := [("score", FieldVal.vi 20)], comments := none }]) := by
  refine ⟨?_, ?_, rfl⟩
  · intro fields ic cl excl ms subs pd hmem
    simp only [processAll, List.mem_map] at hmem
    obtain ⟨p, hp, rfl⟩ := hmem
    rw [List.mem_filter] at hp
    obtain ⟨hpsubs, hkeep⟩ := hp
    simp only [keepPost, Bool.and_eq_true, Bool.not_eq_true'] at hkeep
    refine ⟨p, hpsubs, ?_, rfl⟩
    have := hkeep.2
    simpa using this
  · intro ml mr raw td hmem
    simp only [scrape_twitter_items, List.mem_map] at hmem
    obtain ⟨t, ht, rfl⟩ := hmem
    rw [List.mem_filter] at ht
    obtain ⟨htraw, hkeep⟩ := ht
    simp only [keepTweet, Bool.not_eq_true', Bool.or_eq_false_iff] at hkeep
    refine ⟨t, htraw, ?_, ?_, rfl⟩
    · simpa using hkeep.1
    · simpa using hkeep.2

/-- Witness for C8: the kept-items characterization applied to the
first surviving row of the scenario run. -/
theorem C8_min_score_filter_witness :
    ∃ p ∈ c8Posts, ¬(p.score < (10 : Int)) ∧
      ({ fields := [("score", FieldVal.vi 15)], comments := none } : PostData) =
        processPost ["score"] false 0 p :=
  C8_min_score_filter.1 ["score"] false 0 true 10 c8Posts
    { fields := [("score", FieldVal.vi 15)], comments := none } (by decide)

/-- When every post row has an `id` and an empty nested comment list,
the `all_comments` accumulation is empty. -/
theorem collectComments_empty :
    ∀ posts : List PostData,
      (∀ pd ∈ posts, (lookupField pd "id").isSome ∧ pd.comments.getD [] = []) →
      collectComments posts = Except.ok [] := by
  intro posts
  induction posts with
  | nil => intro _; rfl
  | cons pd rest ih =>
    intro h
    obtain ⟨hid, hc⟩ := h pd (List.mem_cons_self pd rest)
    simp only [collectComments]
    cases hid' : lookupField pd "id" with
    | none => rw [hid'] at hid; cases hid
    | some pid =>
      rw [ih (fun q hq => h q (List.mem_cons_of_mem pd hq))]
      simp [hc]

/-- C10: a dataframe run that requested the split-relation shape
(`include_comments` with positive `comment_limit`) but collected zero
comments across all post rows returns the single flat posts table —
the same constructor a plain flat run returns — and on the concrete
scenario the run is literally equal to the run that never requested
comments, so the caller cannot distinguish the two. -/
theorem C10_split_degrades_to_flat :
    (∀ (cl : Nat) (posts : List PostData), 0 < cl → posts ≠ [] →
        (∀ pd ∈ posts, (lookupField pd "id").isSome ∧ pd.comments.getD [] = []) →
        shapeResult true cl "dataframe" posts =
          Except.ok (RedditScrapeResult.dfFlat
            (posts.map (fun pd => { pd with comments := none })))) ∧
    scrape_reddit none "hot" "all" 10 (fun _ => c10Posts) (some ["id"]) true 2 0 true
        "dataframe" =
      Except.ok (RedditScrapeResult.dfFlat
        [{ fields := [("id", FieldVal.vs "x")], comments := none },
         { fields := [("id", FieldVal.vs "y")], comments := none }]) ∧
    scrape_reddit none "hot" "all" 10 (fun _ => c10Posts) (some ["id"]) true 2 0 true
        "dataframe" =
      scrape_reddit none "hot" "all" 10 (fun _ => c10Posts) (some ["id"]) false 0 0 true
        "dataframe" := by
  refine ⟨?_, rfl, rfl⟩
  intro cl posts hcl hne h
  have hcoll := collectComments_empty posts h
  simp only [shapeResult, hcoll]
  have hde : posts.isEmpty = false := by
    cases posts with
    | nil => exact absurd rfl hne
    | cons a l => rfl
  simp [hde, hcl]

/-- Witness for C10: the general degradation fact applied to the
projected rows of the scenario run. -/
theorem C10_split_degrades_to_flat_witness :
    shapeResult true 2 "dataframe"
        [{ fields := [("id", FieldVal.vs "x")], comments := some [] },
         { fields := [("id", FieldVal.vs "y")], comments := some [] }] =
      Except.ok (RedditScrapeResult.dfFlat
        [{ fields := [("id", FieldVal.vs "x")], comments := none },
         { fields := [("id", FieldVal.vs "y")], comments := none }]) :=
  C10_split_degrades_to_flat.1 2
    [{ fields := [("id", FieldVal.vs "x")], comments := some [] },
     { fields := [("id", FieldVal.vs "y")], comments := some [] }]
    (by decide) (by decide) (by decide)

/-- C5 counterexample: when the upstream fails on all retry attempts,
`scrape_twitter` does not surface any error — it returns the empty
dict-shaped result, the very value a successful run with zero matching
tweets returns, so the two runs are indistinguishable and the claim is
false at this input. -/
theorem C5_error_surfacing_counterexample :
    scrape_twitter c5FailFetch 0 0 "dict" = TwResult.dictRes [] ∧
      scrape_twitter (fun _ => Except.ok []) 0 0 "dict" = TwResult.dictRes [] :=
  ⟨rfl, rfl⟩

/-- C5 as amended: when the upstream adapter fails on all 3 retry
attempts, `scrape_twitter` and `scrape_user_timeline` catch the error
(it is only printed) and return the empty result of the requested
shape; for each of the three documented return types this value is
equal to that of a successful run that matched zero items, so the
caller cannot distinguish total upstream failure from an empty
collection. -/
theorem C5_empty_result_on_failure :
    (∀ (fetch : Nat → OpOutcome String (List RawTweet)) (ml mr : Int) (rt : String),
        (∀ i, i < 3 → ∃ e, fetch i = Except.error e) →
        scrape_twitter fetch ml mr rt = emptyTwResult TweetData rt ∧
        (rt = "dict" ∨ rt = "json" ∨ rt = "dataframe" →
          scrape_twitter (fun _ => Except.ok []) ml mr rt = emptyTwResult TweetData rt)) ∧
    (∀ (u : String) (fetch : Nat → OpOutcome String (List RawTweet)) (ml : Int)
        (rt : String),
        (∀ i, i < 3 → ∃ e, fetch i = Except.error e) →
        scrape_user_timeline u fetch ml rt = emptyTwResult TimelineData rt ∧
        (rt = "dict" ∨ rt = "json" ∨ rt = "dataframe" →
          scrape_user_timeline u (fun _ => Except.ok []) ml rt =
            emptyTwResult TimelineData rt)) := by
  constructor
  · intro fetch ml mr rt h
    have hfail' : ∀ i, i ≤ 2 → ∃ e, fetch (0 + i) = Except.error e := by
      intro i hi; simpa using h i (by omega)
    obtain ⟨h1, _⟩ := retryGo_all_fail fetch 2 0 hfail'
    obtain ⟨e, he⟩ := h 2 (by omega)
    constructor
    · have hro : retry_operation fetch 3 = some (Except.error e) := by
        simp only [retry_operation, h1]
        simpa using congrArg some he
      simp [scrape_twitter, hro]
    · rintro (rfl | rfl | rfl) <;> rfl
  · intro u fetch ml rt h
    have hfail' : ∀ i, i ≤ 2 → ∃ e, fetch (0 + i) = Except.error e := by
      intro i hi; simpa using h i (by omega)
    obtain ⟨h1, _⟩ := retryGo_all_fail fetch 2 0 hfail'
    obtain ⟨e, he⟩ := h 2 (by omega)
    constructor
    · have hro : retry_operation fetch 3 = some (Except.error e) := by
        simp only [retry_operation, h1]
        simpa using congrArg some he
      simp [scrape_user_timeline, hro]
    · rintro (rfl | rfl | rfl) <;> rfl

/-- Witness for C5 as amended, at the concrete always-failing fetch
with the dataframe return type. -/
theorem C5_empty_result_on_failure_witness :
    scrape_twitter c5FailFetch 1 1 "dataframe" = emptyTwResult TweetData "dataframe" ∧
      scrape_user_timeline "elonmusk" c5FailFetch 1 "dataframe" =
        emptyTwResult TimelineData "dataframe" :=
  ⟨(C5_empty_result_on_failure.1 c5FailFetch 1 1 "dataframe"
      (fun i _ => ⟨"connection error " ++ toString i, rfl⟩)).1,
   (C5_empty_result_on_failure.2 "elonmusk" c5FailFetch 1 "dataframe"
      (fun i _ => ⟨"connection error " ++ toString i, rfl⟩)).1⟩

end AgentUtils

